import Mathlib

/-
Verification of the SeaPay hotel-booking backend (backend/app) against its
natural-language specification.

The embedding models the three tool wrappers of
`backend/app/agents/seapay_agent.py` (`make_payment`, `show_hotel_cards`,
`show_approval_request`), the approval-widget builder of
`backend/app/widgets/quick_approve_reject_widget.py`, and the server
adapter `SeaPayServer.respond` of `backend/app/server.py`.

External effects (the outbound HTTP POST of `make_payment`, the widget
build/stream calls, the hosted agent runtime) are modelled as explicit
outcome parameters: each tool is a pure function from its arguments and
the outcome of its one external call to the returned Python dict plus the
observable side effects (whether an HTTP request was issued, which widgets
were streamed, what was handed to the widget builder).
-/

set_option autoImplicit false

namespace SeaPay

/-- JSON-like values, the carrier for Python dicts and parsed response
bodies. Numbers are modelled as rationals (JSON numbers are decimal
literals; no claim depends on binary floating-point behaviour). -/
inductive JValue where
  | null : JValue
  | bool : Bool → JValue
  | num : Rat → JValue
  | str : String → JValue
  | arr : List JValue → JValue
  | obj : List (String × JValue) → JValue

/-- Python `dict` lookup (`d[k]` / `d.get(k)` without default): first
matching key. The dicts built by this code have pairwise distinct keys. -/
def dictGet : List (String × JValue) → String → Option JValue
  | [], _ => none
  | (k, v) :: rest, key => if k = key then some v else dictGet rest key

/-- Python `str()` of a JSON number: integers print without a fractional
part. (No claim inspects a rendered non-integer number.) -/
def ratStr (q : Rat) : String :=
  if q.den = 1 then toString q.num else toString q

mutual
/-- Python `repr()` of a parsed-JSON value, used by `str()` on non-string
values (f-string interpolation of dicts, lists, None, booleans). -/
def pyRepr : JValue → String
  | .null => "None"
  | .bool b => if b then "True" else "False"
  | .num q => ratStr q
  | .str s => "\x27" ++ s ++ "\x27"
  | .arr xs => "[" ++ String.intercalate ", " (pyReprList xs) ++ "]"
  | .obj fs => "\x7b" ++ String.intercalate ", " (pyReprFields fs) ++ "\x7d"

/-- `repr` of each element of a JSON array. -/
def pyReprList : List JValue → List String
  | [] => []
  | v :: vs => pyRepr v :: pyReprList vs

/-- `repr` of each `key: value` entry of a JSON object. -/
def pyReprFields : List (String × JValue) → List String
  | [] => []
  | (k, v) :: fs => ("\x27" ++ k ++ "\x27: " ++ pyRepr v) :: pyReprFields fs
end

/-- Python `str()` of a parsed-JSON value: identity on strings, `repr`
otherwise (this is how an f-string renders the value). -/
def pyStr : JValue → String
  | .str s => s
  | v => pyRepr v

/-- The Python type name of a parsed-JSON value, as it appears in the
`AttributeError` raised by `value.get(...)` on a non-dict value. -/
def pyTypeName : JValue → String
  | .null => "NoneType"
  | .bool _ => "bool"
  | .num q => if q.den = 1 then "int" else "float"
  | .str _ => "str"
  | .arr _ => "list"
  | .obj _ => "dict"

/-- Message of the `AttributeError` raised by `v.get(...)` when `v` is not
a dict. -/
def noGetAttrMsg (v : JValue) : String :=
  "\x27" ++ pyTypeName v ++ "\x27 object has no attribute \x27get\x27"

/-- True when the dict has a string value under the given key: the
"human-readable message string" requirement of the spec. -/
def hasStringField (d : List (String × JValue)) (k : String) : Bool :=
  match dictGet d k with
  | some (.str _) => true
  | _ => false

/- ===================== make_payment ===================== -/

/-- Outcome of the external part of `make_payment`'s `try` block: an
exception raised before the HTTP POST is issued (`Account.from_key`,
client construction), an exception raised once the POST is in flight, or a
response. The `Bool` flags whether the exception is a `ValueError` (the
`except ValueError` arm catches by type). A response carries the HTTP
status code and the result of `response.json()`: either the parsed value
or the message of the parse exception. -/
inductive PostOutcome where
  | raiseBeforePost : Bool → String → PostOutcome
  | raiseAfterPost : Bool → String → PostOutcome
  | response : Nat → Except String JValue → PostOutcome

/-- Whether the external call raised an exception (rather than returning a
response). -/
def PostOutcome.raises : PostOutcome → Bool
  | .raiseBeforePost _ _ => true
  | .raiseAfterPost _ _ => true
  | .response _ _ => false

/-- Result of one `make_payment` execution: the returned dict and whether
an outbound HTTP request was issued. -/
structure PaymentRun where
  result : List (String × JValue)
  httpRequested : Bool

/-- The fixed message of the `except ValueError` arm of `make_payment`. -/
def configMessage : String :=
  "Payment processing is not configured. Please set PRIVATE_KEY environment variable in .env file."

/-- Dict returned by the `except ValueError` arm of `make_payment`. -/
def walletConfigResult (emsg : String) : List (String × JValue) :=
  [("success", .bool false),
   ("error", .str emsg),
   ("message", .str configMessage)]

/-- Dict returned by the `except Exception` arm of `make_payment`. -/
def genericFailureResult (emsg : String) : List (String × JValue) :=
  [("success", .bool false),
   ("error", .str emsg),
   ("message", .str ("Failed to complete payment: " ++ emsg))]

/-- The fixed success message of `make_payment`'s status-200 branch. -/
def successMessage : String :=
  "Reservation confirmed successfully. Payment was automatically processed via x402."

/-- The status-dependent tail of `make_payment`'s `try` block, applied to
the effective `response_data` (the parsed body, or
`{"error": "Invalid response format"}` when parsing failed). On a non-dict
value every `.get` raises `AttributeError`, which the `except Exception`
arm converts to the generic failure dict. -/
def processResponse (hotelName checkIn checkOut : String) (guests : Int)
    (status : Nat) (rd : JValue) : List (String × JValue) :=
  match rd with
  | .obj fields =>
    if status = 200 then
      [("success", .bool true),
       ("reservationId", (dictGet fields "reservationId").getD .null),
       ("hotelName", (dictGet fields "hotelName").getD (.str hotelName)),
       ("checkIn", (dictGet fields "checkIn").getD (.str checkIn)),
       ("checkOut", (dictGet fields "checkOut").getD (.str checkOut)),
       ("guests", (dictGet fields "guests").getD (.num (guests : Rat))),
       ("totalPrice", (dictGet fields "totalPrice").getD .null),
       ("status", (dictGet fields "status").getD (.str "confirmed")),
       ("message", .str successMessage)]
    else
      let err := (dictGet fields "error").getD (.str "Unknown error")
      [("success", .bool false),
       ("status", .num (status : Rat)),
       ("error", err),
       ("message", .str ("Reservation failed: " ++ pyStr err))]
  | other => genericFailureResult (noGetAttrMsg other)

/-- `make_payment` of `backend/app/agents/seapay_agent.py`. `private_key`
is the value of the `PRIVATE_KEY` environment variable (`none` when
unset). `os.getenv` and the `if not private_key` check run before any
external call, so when the key is unset (or empty, which is equally falsy)
the `ValueError` is raised and caught with no HTTP request issued. -/
def make_payment (private_key : Option String)
    (hotelName checkIn checkOut : String) (guests : Int)
    (ext : PostOutcome) : PaymentRun :=
  match private_key with
  | none =>
    ⟨walletConfigResult "PRIVATE_KEY environment variable is not set", false⟩
  | some pk =>
    if pk = "" then
      ⟨walletConfigResult "PRIVATE_KEY environment variable is not set", false⟩
    else
      match ext with
      | .raiseBeforePost true emsg => ⟨walletConfigResult emsg, false⟩
      | .raiseBeforePost false emsg => ⟨genericFailureResult emsg, false⟩
      | .raiseAfterPost true emsg => ⟨walletConfigResult emsg, true⟩
      | .raiseAfterPost false emsg => ⟨genericFailureResult emsg, true⟩
      | .response status bodyResult =>
        let rd : JValue :=
          match bodyResult with
          | .error _ => .obj [("error", .str "Invalid response format")]
          | .ok v => v
        ⟨processResponse hotelName checkIn checkOut guests status rd, true⟩

/- ===================== hotel data / show_hotel_cards ===================== -/

/-- The `price: float | str` field of `HotelData`. -/
inductive PriceVal where
  | num : Rat → PriceVal
  | str : String → PriceVal

/-- JSON value a price dumps to. -/
def PriceVal.toJson : PriceVal → JValue
  | .num q => .num q
  | .str s => .str s

/-- The `HotelData` pydantic model of `backend/app/agents/seapay_agent.py`
(strict schema, `extra="forbid"`). -/
structure HotelData where
  hotelName : String
  location : String
  dates : String
  roomType : String
  price : PriceVal
  imageUrl : Option String

/-- `HotelData.model_dump()`: the six declared fields in declaration
order; an absent `imageUrl` dumps as `None`. -/
def HotelData.model_dump (h : HotelData) : List (String × JValue) :=
  [("hotelName", .str h.hotelName),
   ("location", .str h.location),
   ("dates", .str h.dates),
   ("roomType", .str h.roomType),
   ("price", h.price.toJson),
   ("imageUrl", (h.imageUrl.map JValue.str).getD .null)]

/-- The six field names of `HotelData`. -/
def hotelFieldNames : List String :=
  ["hotelName", "location", "dates", "roomType", "price", "imageUrl"]

/-- Pydantic validation of a record against the `HotelData` schema:
the four string fields and the price must be present and well-typed,
`imageUrl` may be a string, `None`, or absent, and `extra="forbid"`
rejects any other key. -/
def HotelData.validate (d : List (String × JValue)) : Option HotelData :=
  if d.all (fun kv => hotelFieldNames.contains kv.1) then
    match dictGet d "hotelName", dictGet d "location", dictGet d "dates",
          dictGet d "roomType", dictGet d "price", dictGet d "imageUrl" with
    | some (.str hn), some (.str loc), some (.str da), some (.str rt),
      some pv, img =>
      match pv, img with
      | .num q, some (.str u) => some ⟨hn, loc, da, rt, .num q, some u⟩
      | .num q, some .null => some ⟨hn, loc, da, rt, .num q, none⟩
      | .num q, none => some ⟨hn, loc, da, rt, .num q, none⟩
      | .str s, some (.str u) => some ⟨hn, loc, da, rt, .str s, some u⟩
      | .str s, some .null => some ⟨hn, loc, da, rt, .str s, none⟩
      | .str s, none => some ⟨hn, loc, da, rt, .str s, none⟩
      | _, _ => none
    | _, _, _, _, _, _ => none
  else none

/-- Outcome of the external widget build/stream calls inside a tool's
`try` block: success, an exception raised by the widget builder, or an
exception raised by `ctx.context.stream_widget`. -/
inductive WidgetOutcome where
  | ok : WidgetOutcome
  | raiseBuild : String → WidgetOutcome
  | raiseStream : String → WidgetOutcome

/-- Whether the external widget call raised an exception. -/
def WidgetOutcome.raises : WidgetOutcome → Bool
  | .ok => false
  | .raiseBuild _ => true
  | .raiseStream _ => true

/-- Result of one `show_hotel_cards` execution: the returned dict, the
list of dumped hotel dicts handed to `build_hotel_card_widget` (`none`
when the builder was never called), the number of widgets streamed to the
chat, and the `copy_text` of the streamed widget. -/
structure ShowHotelRun where
  result : List (String × JValue)
  builderArg : Option (List (List (String × JValue)))
  streamedWidgets : Nat
  copyText : Option String

/-- The `hotel_names` summary string of `show_hotel_cards`: the first
three hotel names joined by ", ", plus " and N more" when more than three
hotels are present. -/
def hotelNamesCopy (hotels : List HotelData) : String :=
  let names := String.intercalate ", " ((hotels.take 3).map HotelData.hotelName)
  if 3 < hotels.length then
    names ++ " and " ++ toString (hotels.length - 3) ++ " more"
  else
    names

/-- `show_hotel_cards` of `backend/app/agents/seapay_agent.py`. The
`if not hotels` early return precedes the `try` block; inside it the
hotels are dumped, the single widget is built and streamed, and any
exception is converted to the error dict (with no widget streamed). -/
def show_hotel_cards (hotels : List HotelData) (ext : WidgetOutcome) :
    ShowHotelRun :=
  if hotels.isEmpty then
    ⟨[("message", .str "No hotels to display"), ("count", .num 0)],
     none, 0, none⟩
  else
    let dicts := hotels.map HotelData.model_dump
    match ext with
    | .raiseBuild e =>
      ⟨[("message", .str ("Error displaying hotels: " ++ e)),
        ("count", .num 0)], some dicts, 0, none⟩
    | .raiseStream e =>
      ⟨[("message", .str ("Error displaying hotels: " ++ e)),
        ("count", .num 0)], some dicts, 0, none⟩
    | .ok =>
      ⟨[("message", .str ("Displayed " ++ toString hotels.length ++ " hotel(s) in a list")),
        ("count", .num (hotels.length : Rat))],
       some dicts, 1,
       some ("Found " ++ toString hotels.length ++ " hotel(s): " ++ hotelNamesCopy hotels)⟩

/- ===================== show_approval_request / widget builder ===================== -/

/-- Result of one `show_approval_request` execution. -/
structure ShowApprovalRun where
  result : List (String × JValue)
  streamedWidgets : Nat
  copyText : Option String

/-- `show_approval_request` of `backend/app/agents/seapay_agent.py`. -/
def show_approval_request (title descr : String) (ext : WidgetOutcome) :
    ShowApprovalRun :=
  match ext with
  | .ok =>
    ⟨[("message", .str "Approval request displayed"),
      ("title", .str title),
      ("description", .str descr)],
     1, some (title ++ ": " ++ descr)⟩
  | .raiseBuild e =>
    ⟨[("message", .str ("Error displaying approval request: " ++ e))], 0, none⟩
  | .raiseStream e =>
    ⟨[("message", .str ("Error displaying approval request: " ++ e))], 0, none⟩

/-- The payload `build_approval_widget` constructs:
`{"title": title, "description": description}`. -/
def approval_payload (title descr : String) : List (String × JValue) :=
  [("title", .str title), ("description", .str descr)]

/-- `build_approval_widget` of
`backend/app/widgets/quick_approve_reject_widget.py`, parametric in the
external `WidgetTemplate.build` of the loaded template. -/
def build_approval_widget {W : Type} (templateBuild : List (String × JValue) → W)
    (title descr : String) : W :=
  templateBuild (approval_payload title descr)

/-- The keys of a dict, in order. -/
def keysOf (d : List (String × JValue)) : List String :=
  d.map Prod.fst

/- ===================== server adapter ===================== -/

/-- Modelled from the spec: `MemoryStore.load_thread_items` is repository
code not present under `src/` (only its call site in
`backend/app/server.py` is). The spec describes the store as the
externally-provided conversation history; a page request with
`order="desc"` and a `limit` returns the stored items most-recent-first,
truncated at `limit`, and `order="asc"` returns them oldest-first. The
`stored` list is in storage (chronological) order. -/
def load_thread_items {α : Type} (stored : List α) (limit : Nat)
    (desc : Bool) : List α :=
  if desc then stored.reverse.take limit else stored.take limit

/-- The `async for event in ...: yield event` loop of
`SeaPayServer.respond`: each event of the agent-runtime stream is yielded
in turn. -/
def forward_events {ε : Type} : List ε → List ε
  | [] => []
  | e :: rest => e :: forward_events rest

/-- The items `respond` presents to the agent runtime:
`list(reversed(items_page.data))` for the page loaded with `limit=20`,
`order="desc"`. -/
def respond_presented_items {α : Type} (stored : List α) : List α :=
  (load_thread_items stored 20 true).reverse

/-- `SeaPayServer.respond` of `backend/app/server.py`, parametric in the
thread-item converter (`to_agent_input`) and in the composition of
`Runner.run_streamed` with `stream_agent_response` (`run_stream`), both
external. It loads the history page, reverses it, converts it, runs the
agent, and forwards the streamed events. -/
def respond {Item Input Event : Type} (stored : List Item)
    (to_agent_input : List Item → List Input)
    (run_stream : List Input → List Event) : List Event :=
  forward_events (run_stream (to_agent_input (respond_presented_items stored)))

/- ===================== sample data ===================== -/

/-- A concrete hotel record used to instantiate theorems. -/
def sampleHotel : HotelData :=
  ⟨"Grand Plaza", "Paris", "2025-03-01 to 2025-03-05", "Double", .str "120", none⟩

/-- A concrete well-formed hotel record (the six fields, with a `None`
image URL) that validates to `sampleHotel`. -/
def sampleRecord : List (String × JValue) :=
  [("hotelName", .str "Grand Plaza"),
   ("location", .str "Paris"),
   ("dates", .str "2025-03-01 to 2025-03-05"),
   ("roomType", .str "Double"),
   ("price", .str "120"),
   ("imageUrl", .null)]

/- ===================== C1 ===================== -/

/-- C1 counterexample: in an execution of `show_hotel_cards` where the
wrapped widget call raises, the returned object is the error dict, which
contains a message but no success flag — refuting the claim that every
tool wrapper returns an object containing a success flag on failure. -/
theorem show_hotel_cards_failure_lacks_success_flag :
    (show_hotel_cards [sampleHotel] (.raiseBuild "widget build failed")).result =
      [("message", .str "Error displaying hotels: widget build failed"),
       ("count", .num 0)] ∧
    dictGet (show_hotel_cards [sampleHotel] (.raiseBuild "widget build failed")).result
      "success" = none :=
  ⟨rfl, rfl⟩

/-- C1 (amended): in every execution where the wrapped external call
raises, each tool wrapper returns a structured object containing a
human-readable message string rather than propagating the exception;
`make_payment`'s object additionally carries `success = False`, while the
two widget wrappers' error objects carry no success flag. -/
theorem tool_wrapper_failure_objects
    (pk : Option String) (hn ci co : String) (g : Int) (pext : PostOutcome)
    (hotels : List HotelData) (wext : WidgetOutcome) (t d : String)
    (hp : pext.raises = true) (hw : wext.raises = true) :
    hasStringField (make_payment pk hn ci co g pext).result "message" = true ∧
    dictGet (make_payment pk hn ci co g pext).result "success" = some (.bool false) ∧
    hasStringField (show_hotel_cards hotels wext).result "message" = true ∧
    hasStringField (show_approval_request t d wext).result "message" = true := by
  have hpay : hasStringField (make_payment pk hn ci co g pext).result "message" = true ∧
      dictGet (make_payment pk hn ci co g pext).result "success" = some (.bool false) := by
    cases pk with
    | none =>
      simp [make_payment, walletConfigResult, hasStringField, dictGet]
    | some p =>
      by_cases hp0 : p = ""
      · simp [make_payment, hp0, walletConfigResult, hasStringField, dictGet]
      · cases pext with
        | raiseBeforePost b m =>
          cases b <;>
            simp [make_payment, hp0, walletConfigResult, genericFailureResult,
              hasStringField, dictGet]
        | raiseAfterPost b m =>
          cases b <;>
            simp [make_payment, hp0, walletConfigResult, genericFailureResult,
              hasStringField, dictGet]
        | response s r => simp [PostOutcome.raises] at hp
  have hcards : hasStringField (show_hotel_cards hotels wext).result "message" = true := by
    cases wext with
    | ok => simp [WidgetOutcome.raises] at hw
    | raiseBuild e =>
      cases hotels <;> simp [show_hotel_cards, hasStringField, dictGet]
    | raiseStream e =>
      cases hotels <;> simp [show_hotel_cards, hasStringField, dictGet]
  have happrove : hasStringField (show_approval_request t d wext).result "message" = true := by
    cases wext with
    | ok => simp [WidgetOutcome.raises] at hw
    | raiseBuild e => simp [show_approval_request, hasStringField, dictGet]
    | raiseStream e => simp [show_approval_request, hasStringField, dictGet]
  exact ⟨hpay.1, hpay.2, hcards, happrove⟩

/-- C1 witness: the amended claim at a concrete failing execution of each
wrapper. -/
theorem tool_wrapper_failure_objects_witness :
    hasStringField (make_payment none "Grand Plaza" "2025-03-01" "2025-03-05" 2
      (.raiseBeforePost false "boom")).result "message" = true ∧
    dictGet (make_payment none "Grand Plaza" "2025-03-01" "2025-03-05" 2
      (.raiseBeforePost false "boom")).result "success" = some (.bool false) ∧
    hasStringField (show_hotel_cards [sampleHotel] (.raiseBuild "boom")).result
      "message" = true ∧
    hasStringField (show_approval_request "Proceed?" "Reserve now"
      (.raiseStream "boom")).result "message" = true :=
  tool_wrapper_failure_objects none "Grand Plaza" "2025-03-01" "2025-03-05" 2
    (.raiseBeforePost false "boom") [sampleHotel] (.raiseBuild "boom")
    "Proceed?" "Reserve now" rfl rfl

/- ===================== C2 ===================== -/

/-- C2 counterexample: when the response has status 200 and its body
fails JSON parsing, `make_payment` returns `success = True` with the
fixed success message — the malformed-JSON condition is not surfaced as a
failure message, refuting the claim that it is surfaced regardless of the
HTTP status code. -/
theorem make_payment_200_parse_failure_reports_success :
    dictGet (make_payment (some "0xabc") "Grand Plaza" "2025-03-01" "2025-03-05" 2
      (.response 200 (.error "Expecting value"))).result "success" =
      some (.bool true) ∧
    dictGet (make_payment (some "0xabc") "Grand Plaza" "2025-03-01" "2025-03-05" 2
      (.response 200 (.error "Expecting value"))).result "message" =
      some (.str "Reservation confirmed successfully. Payment was automatically processed via x402.") :=
  ⟨rfl, rfl⟩

/-- C2 (amended): when the HTTP response body fails JSON parsing, no
exception escapes `make_payment` — the returned object always carries a
message string; when additionally the status is not 200, the parse
failure is surfaced as a failure object: `success = False`, error
`"Invalid response format"`, message
`"Reservation failed: Invalid response format"`, and the status field set
to the HTTP status code. When the status is 200 the call instead reports
success. -/
theorem make_payment_parse_failure_handling
    (pk hn ci co : String) (g : Int) (status status2 : Nat) (emsg : String)
    (hpk : pk ≠ "") (hst : status2 ≠ 200) :
    hasStringField (make_payment (some pk) hn ci co g
      (.response status (.error emsg))).result "message" = true ∧
    dictGet (make_payment (some pk) hn ci co g
      (.response status2 (.error emsg))).result "success" = some (.bool false) ∧
    dictGet (make_payment (some pk) hn ci co g
      (.response status2 (.error emsg))).result "error" =
      some (.str "Invalid response format") ∧
    dictGet (make_payment (some pk) hn ci co g
      (.response status2 (.error emsg))).result "message" =
      some (.str "Reservation failed: Invalid response format") ∧
    dictGet (make_payment (some pk) hn ci co g
      (.response status2 (.error emsg))).result "status" =
      some (.num (status2 : Rat)) := by
  refine ⟨?_, ?_, ?_, ?_, ?_⟩
  · by_cases h200 : status = 200 <;>
      simp [make_payment, hpk, processResponse, h200, hasStringField, dictGet, pyStr]
  all_goals
    simp [make_payment, hpk, processResponse, hst, hasStringField, dictGet, pyStr]

/-- C2 witness: the amended claim at a concrete parse-failure execution
(status 200 for the first conjunct, status 502 for the rest). -/
theorem make_payment_parse_failure_handling_witness :
    hasStringField (make_payment (some "0xabc") "Grand Plaza" "2025-03-01" "2025-03-05" 2
      (.response 200 (.error "Expecting value"))).result "message" = true ∧
    dictGet (make_payment (some "0xabc") "Grand Plaza" "2025-03-01" "2025-03-05" 2
      (.response 502 (.error "Expecting value"))).result "success" = some (.bool false) ∧
    dictGet (make_payment (some "0xabc") "Grand Plaza" "2025-03-01" "2025-03-05" 2
      (.response 502 (.error "Expecting value"))).result "error" =
      some (.str "Invalid response format") ∧
    dictGet (make_payment (some "0xabc") "Grand Plaza" "2025-03-01" "2025-03-05" 2
      (.response 502 (.error "Expecting value"))).result "message" =
      some (.str "Reservation failed: Invalid response format") ∧
    dictGet (make_payment (some "0xabc") "Grand Plaza" "2025-03-01" "2025-03-05" 2
      (.response 502 (.error "Expecting value"))).result "status" =
      some (.num ((502 : Nat) : Rat)) :=
  make_payment_parse_failure_handling "0xabc" "Grand Plaza" "2025-03-01" "2025-03-05" 2
    200 502 "Expecting value" (by simp) (by simp)

/- ===================== C3 ===================== -/

/-- C3: when the `PRIVATE_KEY` environment variable is unset,
`make_payment` does not raise: it returns `success = False`, the error
string of the raised `ValueError`, and the fixed configuration message,
and no outbound HTTP request is made. -/
theorem make_payment_missing_key_config_error
    (hn ci co : String) (g : Int) (ext : PostOutcome) :
    dictGet (make_payment none hn ci co g ext).result "success" =
      some (.bool false) ∧
    dictGet (make_payment none hn ci co g ext).result "error" =
      some (.str "PRIVATE_KEY environment variable is not set") ∧
    dictGet (make_payment none hn ci co g ext).result "message" =
      some (.str "Payment processing is not configured. Please set PRIVATE_KEY environment variable in .env file.") ∧
    (make_payment none hn ci co g ext).httpRequested = false :=
  ⟨rfl, rfl, rfl, rfl⟩

/- ===================== C4 ===================== -/

/-- C4 counterexample: a non-200 response whose body parses to a JSON
array makes every `.get` on `response_data` raise `AttributeError`, so
`make_payment` returns the generic payment-failure object, which has no
status field — refuting the claim that for every non-200 response the
returned object's status field equals the HTTP status code. -/
theorem make_payment_non200_array_body_lacks_status :
    dictGet (make_payment (some "0xabc") "Grand Plaza" "2025-03-01" "2025-03-05" 2
      (.response 404 (.ok (.arr [])))).result "status" = none ∧
    dictGet (make_payment (some "0xabc") "Grand Plaza" "2025-03-01" "2025-03-05" 2
      (.response 404 (.ok (.arr [])))).result "message" =
      some (.str "Failed to complete payment: \x27list\x27 object has no attribute \x27get\x27") :=
  ⟨rfl, rfl⟩

/-- C4 (amended): for every execution of `make_payment` in which the HTTP
response has a status other than 200 and the body either parses to a JSON
object or fails JSON parsing, the returned object has `success = False`,
its status field equal to the HTTP status code, its error field equal to
the effective error value, and message `"Reservation failed: <error>"`,
where the effective error value is the body's `error` field, or
`"Unknown error"` when that field is absent, or
`"Invalid response format"` when the body failed to parse. (When the body
parses to a non-object JSON value the call instead returns the generic
payment-failure object without a status field.) -/
theorem make_payment_non200_failure_object
    (pk hn ci co : String) (g : Int) (status : Nat)
    (body : Except String JValue) (fields : List (String × JValue))
    (emsg : String) (errVal : JValue)
    (hpk : pk ≠ "") (hst : status ≠ 200)
    (hbody : body = Except.ok (.obj fields) ∧
        errVal = (dictGet fields "error").getD (.str "Unknown error") ∨
      body = Except.error emsg ∧ errVal = .str "Invalid response format") :
    dictGet (make_payment (some pk) hn ci co g
      (.response status body)).result "success" = some (.bool false) ∧
    dictGet (make_payment (some pk) hn ci co g
      (.response status body)).result "status" = some (.num (status : Rat)) ∧
    dictGet (make_payment (some pk) hn ci co g
      (.response status body)).result "error" = some errVal ∧
    dictGet (make_payment (some pk) hn ci co g
      (.response status body)).result "message" =
      some (.str ("Reservation failed: " ++ pyStr errVal)) := by
  rcases hbody with ⟨hb, he⟩ | ⟨hb, he⟩ <;> subst hb <;> subst he <;>
    simp [make_payment, hpk, processResponse, hst, dictGet]

/-- C4 witness: the amended claim at a concrete non-200 response with a
JSON-object body carrying an error field. -/
theorem make_payment_non200_failure_object_witness :
    dictGet (make_payment (some "0xabc") "Grand Plaza" "2025-03-01" "2025-03-05" 2
      (.response 409 (.ok (.obj [("error", .str "No rooms available")])))).result
      "success" = some (.bool false) ∧
    dictGet (make_payment (some "0xabc") "Grand Plaza" "2025-03-01" "2025-03-05" 2
      (.response 409 (.ok (.obj [("error", .str "No rooms available")])))).result
      "status" = some (.num ((409 : Nat) : Rat)) ∧
    dictGet (make_payment (some "0xabc") "Grand Plaza" "2025-03-01" "2025-03-05" 2
      (.response 409 (.ok (.obj [("error", .str "No rooms available")])))).result
      "error" = some ((dictGet [("error", .str "No rooms available")] "error").getD
        (.str "Unknown error")) ∧
    dictGet (make_payment (some "0xabc") "Grand Plaza" "2025-03-01" "2025-03-05" 2
      (.response 409 (.ok (.obj [("error", .str "No rooms available")])))).result
      "message" = some (.str ("Reservation failed: " ++
        pyStr ((dictGet [("error", .str "No rooms available")] "error").getD
          (.str "Unknown error")))) :=
  make_payment_non200_failure_object "0xabc" "Grand Plaza" "2025-03-01" "2025-03-05" 2
    409 (.ok (.obj [("error", .str "No rooms available")]))
    [("error", .str "No rooms available")] "" _
    (by simp) (by simp) (Or.inl ⟨rfl, rfl⟩)

/- ===================== C5 ===================== -/

/-- C5 counterexample: a 200 response whose body is valid JSON but a JSON
array (not an object) makes `.get` raise `AttributeError`, so
`make_payment` returns `success = False` — refuting the claim that every
200 response with a JSON body yields a success object. -/
theorem make_payment_200_array_body_not_success :
    dictGet (make_payment (some "0xabc") "Grand Plaza" "2025-03-01" "2025-03-05" 2
      (.response 200 (.ok (.arr [])))).result "success" = some (.bool false) :=
  rfl

/-- C5 (amended): for every execution of `make_payment` in which the HTTP
response has status 200 and a JSON object body, the returned object has
`success = True`, and its `hotelName`, `checkIn`, `checkOut`, and
`guests` fields equal the corresponding body values when present and
otherwise default to the tool's call arguments, with the status field
defaulting to `"confirmed"`. -/
theorem make_payment_200_object_body_success
    (pk hn ci co : String) (g : Int) (fields : List (String × JValue))
    (hpk : pk ≠ "") :
    dictGet (make_payment (some pk) hn ci co g
      (.response 200 (.ok (.obj fields)))).result "success" = some (.bool true) ∧
    dictGet (make_payment (some pk) hn ci co g
      (.response 200 (.ok (.obj fields)))).result "hotelName" =
      some ((dictGet fields "hotelName").getD (.str hn)) ∧
    dictGet (make_payment (some pk) hn ci co g
      (.response 200 (.ok (.obj fields)))).result "checkIn" =
      some ((dictGet fields "checkIn").getD (.str ci)) ∧
    dictGet (make_payment (some pk) hn ci co g
      (.response 200 (.ok (.obj fields)))).result "checkOut" =
      some ((dictGet fields "checkOut").getD (.str co)) ∧
    dictGet (make_payment (some pk) hn ci co g
      (.response 200 (.ok (.obj fields)))).result "guests" =
      some ((dictGet fields "guests").getD (.num (g : Rat))) ∧
    dictGet (make_payment (some pk) hn ci co g
      (.response 200 (.ok (.obj fields)))).result "status" =
      some ((dictGet fields "status").getD (.str "confirmed")) := by
  simp [make_payment, hpk, processResponse, dictGet]

/-- C5 witness: the amended claim at a concrete 200 response whose body
carries some of the fields and omits the others. -/
theorem make_payment_200_object_body_success_witness :
    dictGet (make_payment (some "0xabc") "Grand Plaza" "2025-03-01" "2025-03-05" 2
      (.response 200 (.ok (.obj [("reservationId", .str "r-1"), ("hotelName", .str "Grand Plaza Deluxe")])))).result
      "success" = some (.bool true) ∧
    dictGet (make_payment (some "0xabc") "Grand Plaza" "2025-03-01" "2025-03-05" 2
      (.response 200 (.ok (.obj [("reservationId", .str "r-1"), ("hotelName", .str "Grand Plaza Deluxe")])))).result
      "hotelName" = some ((dictGet [("reservationId", .str "r-1"), ("hotelName", .str "Grand Plaza Deluxe")]
        "hotelName").getD (.str "Grand Plaza")) ∧
    dictGet (make_payment (some "0xabc") "Grand Plaza" "2025-03-01" "2025-03-05" 2
      (.response 200 (.ok (.obj [("reservationId", .str "r-1"), ("hotelName", .str "Grand Plaza Deluxe")])))).result
      "checkIn" = some ((dictGet [("reservationId", .str "r-1"), ("hotelName", .str "Grand Plaza Deluxe")]
        "checkIn").getD (.str "2025-03-01")) ∧
    dictGet (make_payment (some "0xabc") "Grand Plaza" "2025-03-01" "2025-03-05" 2
      (.response 200 (.ok (.obj [("reservationId", .str "r-1"), ("hotelName", .str "Grand Plaza Deluxe")])))).result
      "checkOut" = some ((dictGet [("reservationId", .str "r-1"), ("hotelName", .str "Grand Plaza Deluxe")]
        "checkOut").getD (.str "2025-03-05")) ∧
    dictGet (make_payment (some "0xabc") "Grand Plaza" "2025-03-01" "2025-03-05" 2
      (.response 200 (.ok (.obj [("reservationId", .str "r-1"), ("hotelName", .str "Grand Plaza Deluxe")])))).result
      "guests" = some ((dictGet [("reservationId", .str "r-1"), ("hotelName", .str "Grand Plaza Deluxe")]
        "guests").getD (.num ((2 : Int) : Rat))) ∧
    dictGet (make_payment (some "0xabc") "Grand Plaza" "2025-03-01" "2025-03-05" 2
      (.response 200 (.ok (.obj [("reservationId", .str "r-1"), ("hotelName", .str "Grand Plaza Deluxe")])))).result
      "status" = some ((dictGet [("reservationId", .str "r-1"), ("hotelName", .str "Grand Plaza Deluxe")]
        "status").getD (.str "confirmed")) :=
  make_payment_200_object_body_success "0xabc" "Grand Plaza" "2025-03-01" "2025-03-05" 2
    [("reservationId", .str "r-1"), ("hotelName", .str "Grand Plaza Deluxe")] (by simp)

/- ===================== C6 / C10 helper ===================== -/

/-- Yielding every event of a stream in turn reproduces the stream. -/
theorem forward_events_eq {ε : Type} (es : List ε) : forward_events es = es := by
  induction es with
  | nil => rfl
  | cons e rest ih => simp [forward_events, ih]

/- ===================== C6 ===================== -/

/-- C6: `SeaPayServer.respond` forwards the event stream produced by the
agent runtime unchanged — the sequence of events it yields is exactly the
sequence `stream_agent_response` produces for that run's input, in order,
with nothing dropped, reordered, or inserted. -/
theorem respond_forwards_runtime_events
    (Item Input Event : Type) (stored : List Item)
    (conv : List Item → List Input) (runtime : List Input → List Event) :
    respond stored conv runtime =
      runtime (conv (respond_presented_items stored)) := by
  unfold respond
  exact forward_events_eq _

/- ===================== C7 ===================== -/

/-- C7: `build_approval_widget(title, description)` equals the template
built with exactly the two-field payload
`{"title": title, "description": description}` — the given strings are
substituted unmodified and no other payload field is passed. -/
theorem build_approval_widget_payload_exact
    (W : Type) (templateBuild : List (String × JValue) → W) (t d : String) :
    build_approval_widget templateBuild t d =
      templateBuild (approval_payload t d) ∧
    approval_payload t d = [("title", .str t), ("description", .str d)] ∧
    keysOf (approval_payload t d) = ["title", "description"] ∧
    dictGet (approval_payload t d) "title" = some (.str t) ∧
    dictGet (approval_payload t d) "description" = some (.str d) := by
  refine ⟨rfl, rfl, rfl, rfl, ?_⟩
  simp [approval_payload, dictGet]

/- ===================== C8 ===================== -/

/-- C8: hotel options are passed through unchanged — `show_hotel_cards`
hands the widget builder the dumped records of the input hotels in the
same order; each dumped record's six fields equal those of its hotel; and
dumping a `HotelData` validated from a well-formed hotel record (one with
its six fields present and well-typed) yields the same six fields back. -/
theorem hotel_cards_pass_through
    (hotels : List HotelData) (ext : WidgetOutcome) (hx : HotelData)
    (d : List (String × JValue)) (h : HotelData)
    (hne : hotels ≠ []) (hv : HotelData.validate d = some h)
    (himg : dictGet d "imageUrl" ≠ none) :
    (show_hotel_cards hotels ext).builderArg =
      some (hotels.map HotelData.model_dump) ∧
    (dictGet hx.model_dump "hotelName" = some (.str hx.hotelName) ∧
     dictGet hx.model_dump "location" = some (.str hx.location) ∧
     dictGet hx.model_dump "dates" = some (.str hx.dates) ∧
     dictGet hx.model_dump "roomType" = some (.str hx.roomType) ∧
     dictGet hx.model_dump "price" = some hx.price.toJson ∧
     dictGet hx.model_dump "imageUrl" =
       some ((hx.imageUrl.map JValue.str).getD .null)) ∧
    (dictGet h.model_dump "hotelName" = dictGet d "hotelName" ∧
     dictGet h.model_dump "location" = dictGet d "location" ∧
     dictGet h.model_dump "dates" = dictGet d "dates" ∧
     dictGet h.model_dump "roomType" = dictGet d "roomType" ∧
     dictGet h.model_dump "price" = dictGet d "price" ∧
     dictGet h.model_dump "imageUrl" = dictGet d "imageUrl") := by
  refine ⟨?_, ?_, ?_⟩
  · cases hotels with
    | nil => exact absurd rfl hne
    | cons a t => cases ext <;> simp [show_hotel_cards]
  · simp [HotelData.model_dump, dictGet]
  · unfold HotelData.validate at hv
    split at hv
    · split at hv
      · split at hv <;>
          first
          | (injection hv with hh; subst hh;
             simp_all [HotelData.model_dump, dictGet, PriceVal.toJson])
          | simp_all
      · simp_all
    · simp_all

/-- C8 witness: the claim at a one-hotel list and a concrete well-formed
hotel record. -/
theorem hotel_cards_pass_through_witness :
    (show_hotel_cards [sampleHotel] .ok).builderArg =
      some ([sampleHotel].map HotelData.model_dump) ∧
    (dictGet sampleHotel.model_dump "hotelName" =
       some (.str sampleHotel.hotelName) ∧
     dictGet sampleHotel.model_dump "location" =
       some (.str sampleHotel.location) ∧
     dictGet sampleHotel.model_dump "dates" = some (.str sampleHotel.dates) ∧
     dictGet sampleHotel.model_dump "roomType" =
       some (.str sampleHotel.roomType) ∧
     dictGet sampleHotel.model_dump "price" = some sampleHotel.price.toJson ∧
     dictGet sampleHotel.model_dump "imageUrl" =
       some ((sampleHotel.imageUrl.map JValue.str).getD .null)) ∧
    (dictGet sampleHotel.model_dump "hotelName" =
       dictGet sampleRecord "hotelName" ∧
     dictGet sampleHotel.model_dump "location" =
       dictGet sampleRecord "location" ∧
     dictGet sampleHotel.model_dump "dates" = dictGet sampleRecord "dates" ∧
     dictGet sampleHotel.model_dump "roomType" =
       dictGet sampleRecord "roomType" ∧
     dictGet sampleHotel.model_dump "price" = dictGet sampleRecord "price" ∧
     dictGet sampleHotel.model_dump "imageUrl" =
       dictGet sampleRecord "imageUrl") :=
  hotel_cards_pass_through [sampleHotel] .ok sampleHotel sampleRecord sampleHotel
    (by simp) rfl (by simp [sampleRecord, dictGet])

/- ===================== C9 ===================== -/

/-- C9: for the empty hotel list `show_hotel_cards` returns
`{"message": "No hotels to display", "count": 0}` and streams no widget;
for every non-empty list, in the execution where the widget build and
stream succeed, it streams exactly one widget, returns count equal to the
length of the list, and the streamed copy text names at most the first
three hotels followed by " and N more" when more than three are
present. -/
theorem show_hotel_cards_count_and_copy
    (hotels : List HotelData) (extAny ext : WidgetOutcome)
    (hne : hotels ≠ []) (hok : ext = .ok) :
    ((show_hotel_cards [] extAny).result =
        [("message", .str "No hotels to display"), ("count", .num 0)] ∧
      (show_hotel_cards [] extAny).streamedWidgets = 0) ∧
    ((show_hotel_cards hotels ext).streamedWidgets = 1 ∧
      dictGet (show_hotel_cards hotels ext).result "count" =
        some (.num (hotels.length : Rat)) ∧
      (show_hotel_cards hotels ext).copyText =
        some ("Found " ++ toString hotels.length ++ " hotel(s): " ++
          (String.intercalate ", " ((hotels.take 3).map HotelData.hotelName) ++
            (if 3 < hotels.length then
              " and " ++ toString (hotels.length - 3) ++ " more"
            else "")))) := by
  subst hok
  refine ⟨⟨by simp [show_hotel_cards], by simp [show_hotel_cards]⟩, ?_⟩
  cases hotels with
  | nil => exact absurd rfl hne
  | cons a t =>
    refine ⟨by simp [show_hotel_cards], by simp [show_hotel_cards, dictGet], ?_⟩
    by_cases h3 : 3 < t.length + 1 <;>
      simp [show_hotel_cards, hotelNamesCopy, h3, String.append_assoc]

/-- C9 witness: the claim at a concrete one-hotel list, with an arbitrary
widget outcome for the empty-list conjunct. -/
theorem show_hotel_cards_count_and_copy_witness :
    ((show_hotel_cards [] (.raiseBuild "boom")).result =
        [("message", .str "No hotels to display"), ("count", .num 0)] ∧
      (show_hotel_cards [] (.raiseBuild "boom")).streamedWidgets = 0) ∧
    ((show_hotel_cards [sampleHotel] .ok).streamedWidgets = 1 ∧
      dictGet (show_hotel_cards [sampleHotel] .ok).result "count" =
        some (.num (([sampleHotel] : List HotelData).length : Rat)) ∧
      (show_hotel_cards [sampleHotel] .ok).copyText =
        some ("Found " ++ toString ([sampleHotel] : List HotelData).length ++
          " hotel(s): " ++
          (String.intercalate ", "
              ((([sampleHotel] : List HotelData).take 3).map HotelData.hotelName) ++
            (if 3 < ([sampleHotel] : List HotelData).length then
              " and " ++ toString (([sampleHotel] : List HotelData).length - 3) ++ " more"
            else "")))) :=
  show_hotel_cards_count_and_copy [sampleHotel] (.raiseBuild "boom") .ok
    (by simp) rfl

/- ===================== C10 ===================== -/

/-- C10: `respond` loads at most the 20 most recently stored thread items
(the page is requested in descending order with limit 20) and presents
them to the agent runtime reversed into chronological oldest-first order:
the presented list is the suffix of the stored chronological list of
length `min 20 length`, so items older than the most recent 20 are never
included in the agent input. -/
theorem respond_loads_last_twenty
    (Item Input Event : Type) (stored : List Item)
    (conv : List Item → List Input) (runtime : List Input → List Event) :
    respond_presented_items stored = stored.drop (stored.length - 20) ∧
    (respond_presented_items stored).length = min 20 stored.length ∧
    respond_presented_items stored <:+ stored ∧
    respond stored conv runtime =
      runtime (conv (stored.drop (stored.length - 20))) := by
  have hdrop : respond_presented_items stored = stored.drop (stored.length - 20) := by
    unfold respond_presented_items load_thread_items
    simp [List.take_reverse]
  refine ⟨hdrop, ?_, ?_, ?_⟩
  · rw [hdrop, List.length_drop]
    omega
  · rw [hdrop]
    exact List.drop_suffix _ _
  · unfold respond
    rw [forward_events_eq, hdrop]

end SeaPay
